import Mathlib

/-!
Shallow embedding of the firecore-pokedex core (Rust) for specification
verification.

The embedding translates the source files under `src/`:
* `src/dex.rs` — the `Dex` trait and `BasicDex` (hash map modelled as an
  association list where the first matching key wins);
* `src/item/stack.rs` — `ItemStack` and its operations;
* `src/moves/set.rs` — `SavedMoveSet` / `OwnedMoveSet`;
* `src/pokemon.rs` and `src/pokemon/stat/base.rs` — stat formulas (the
  `f32`/`f64` arithmetic is modelled exactly over `ℚ`; for all in-range
  inputs the float rounding error is far below the distance of the exact
  value to an integer, so every `floor` agrees with the exact rational one);
* `src/pokemon/owned.rs` — `SavedPokemon`/`OwnedPokemon`, `init`, `uninit`,
  `add_exp`, `on_level_up`.

Machine integers are modelled as `Nat` with explicit `% 2^32` (u32) and
`% 256` (u8) where the source can overflow; `usize` saturation is modelled
with an explicit maximum.  Fallible operations return `Option`; the
`panic!` in `BasicDex::unknown` is modelled by the explicit `PanicOr`
result type.
-/

namespace Firecore

/-- `PokemonId` (`u16` in `src/pokemon.rs`). -/
abbrev PokemonId := Nat

/-- `Level` (`u8` in `src/pokemon.rs`). -/
abbrev Level := Nat

/-- `Experience` (`u32` in `src/pokemon.rs`); overflow modelled via `% U32`. -/
abbrev Experience := Nat

/-- Move identifier (a small string-like id in the source; modelled as `String`). -/
abbrev MoveId := String

/-- Item identifier (a small string-like id in the source; modelled as `String`). -/
abbrev ItemId := String

/-- `PP`, a move's power-point counter. -/
abbrev PP := Nat

/-- `BaseStat` (`u16` in `src/pokemon/stat/base.rs`). -/
abbrev BaseStat := Nat

/-- One past the maximum `u32` value: `2^32`. -/
def U32 : Nat := 4294967296

/-- The maximum `usize` value (64-bit target): `2^64 - 1`. -/
def USIZE_MAX : Nat := 18446744073709551615

/-! ## Dex (`src/dex.rs`)

`BasicDex` wraps a `HashMap<I::Id, O>`; a hash map with unique keys is
modelled as an association list in which the first matching key wins. -/

/-- `BasicDex::try_get` / `HashMap::get`: first entry with the given key. -/
def dexTryGet {ι α : Type} [DecidableEq ι] : List (ι × α) → ι → Option α
  | [], _ => none
  | (k, v) :: rest, i => if k = i then some v else dexTryGet rest i

/-- Result of an operation that either returns a value or aborts the
process (`panic!`).  `fatal` models the panic. -/
inductive PanicOr (α : Type) where
  | fatal : PanicOr α
  | ok : α → PanicOr α
deriving DecidableEq

/-- `BasicDex::unknown` (`src/dex.rs` lines 95–103): look up the kind's
`UNKNOWN` id; panics (`fatal`) when the entry is absent. -/
def dexUnknown {ι α : Type} [DecidableEq ι] (entries : List (ι × α)) (unknownId : ι) :
    PanicOr α :=
  match dexTryGet entries unknownId with
  | some u => PanicOr.ok u
  | none => PanicOr.fatal

/-- `Dex::get` (`src/dex.rs` lines 16–18): `try_get(id)` or, on miss, the
unknown entry. -/
def dexGet {ι α : Type} [DecidableEq ι] (entries : List (ι × α)) (unknownId : ι) (id : ι) :
    PanicOr α :=
  match dexTryGet entries id with
  | some v => PanicOr.ok v
  | none => dexUnknown entries unknownId

/-- A dex is well formed when every entry is keyed by its own entity's id,
the invariant `BasicDex::insert` maintains. -/
def dexWF {ι α : Type} [DecidableEq ι] (getId : α → ι) (entries : List (ι × α)) : Bool :=
  entries.all (fun kv => decide (getId kv.2 = kv.1))

/-! ## Stats (`src/pokemon/stat`) -/

/-- `StatSet<u8>` instantiation used for base stats, IVs and EVs. -/
structure Stats where
  hp : Nat
  atk : Nat
  defense : Nat
  spAtk : Nat
  spDef : Nat
  speed : Nat
deriving DecidableEq

/-- `StatType` (`src/pokemon/stat`). -/
inductive StatType where
  | Health | Attack | Defense | SpAttack | SpDefense | Speed
deriving DecidableEq

/-- The hardcoded nature multiplier of the source: `let nature = 1.0;`
(`src/pokemon.rs` line 125, `src/pokemon/stat/base.rs` line 71). -/
def natureMultiplier : ℚ := 1

/-- `Pokemon::base_stat` / `StatSet::stat` (non-health formula), the `f32`
operations modelled exactly over `ℚ`:
`(((2·base + iv + ev) · level / 100 + 5).floor() * nature).floor() as u16`. -/
def base_stat (base iv ev : Nat) (level : Level) : BaseStat :=
  (⌊(⌊(2 * (base : ℚ) + iv + ev) * level / 100 + 5⌋ : ℚ) * natureMultiplier⌋).toNat

/-- `Pokemon::base_hp` / `StatSet::hp` (health formula; `f32` in
`src/pokemon.rs`, `f64` in `src/pokemon/stat/base.rs`, identical value),
modelled exactly over `ℚ`:
`((2·base + iv + ev) · level / 100 + level + 10).floor() as u16`. -/
def base_hp (base iv ev : Nat) (level : Level) : BaseStat :=
  (⌊(2 * (base : ℚ) + iv + ev) * level / 100 + level + 10⌋).toNat

/-! ## Items (`src/item/stack.rs`)

The `Item` entity definition itself is not under `src/`; only
`src/item/stack.rs` is.  Its fields are modelled from the spec (§4.3):
a stable id, a stackability kind (`Unique` / `Singular` /
`Stackable(size)`, the variants named in `src/item/stack.rs`), and a
consumable flag read by `should_consume()`. -/

/-- `Stackable` (variants as matched in `src/item/stack.rs`). -/
inductive Stackable where
  | Singular : Stackable
  | Stackable : Nat → Stackable
  | Unique : Stackable
deriving DecidableEq

/-- Modelled from the spec: the `Item` entity record (its definition file
is absent from `src/`); holds the id, stackability and the consumable
flag that `should_consume()` reports. -/
structure Item where
  id : ItemId
  stackable : Stackable
  consume : Bool
deriving DecidableEq

/-- `Item::should_consume`. -/
def Item.should_consume (i : Item) : Bool := i.consume

/-- `ItemStack` (`src/item/stack.rs`): an item reference plus a `usize` count. -/
structure ItemStack (I : Type) where
  item : I
  count : Nat
deriving DecidableEq

/-- `ItemStack::take_gt` (private helper; precondition `count ≤ self.count`):
returns the taken stack and the updated source. -/
def ItemStack.take_gt {I : Type} (s : ItemStack I) (count : Nat) :
    ItemStack I × ItemStack I :=
  ({ item := s.item, count := count }, { s with count := s.count - count })

/-- `ItemStack::try_take`: `none` (source unchanged) when `count > self.count`,
otherwise the taken stack plus decremented source. -/
def ItemStack.try_take {I : Type} (s : ItemStack I) (count : Nat) :
    Option (ItemStack I) × ItemStack I :=
  if count > s.count then (none, s)
  else
    let r := s.take_gt count
    (some r.1, r.2)

/-- `ItemStack::take`: when `count > self.count` takes everything and zeroes
the source, otherwise behaves like the successful `try_take`. -/
def ItemStack.take {I : Type} (s : ItemStack I) (count : Nat) :
    ItemStack I × ItemStack I :=
  if count > s.count then
    ({ item := s.item, count := s.count }, { s with count := 0 })
  else s.take_gt count

/-- `ItemStack::try_use` (`src/item/stack.rs` lines 55–64). -/
def ItemStack.try_use (s : ItemStack Item) : Bool × ItemStack Item :=
  if s.count > 0 then
    if s.item.should_consume then (true, { s with count := s.count - 1 })
    else (true, s)
  else (false, s)

/-- `ItemStack::add` (`src/item/stack.rs` lines 66–72): refuses for a
`Unique` item with non-zero count, otherwise saturating-adds. -/
def ItemStack.add (s : ItemStack Item) (count : Nat) : Bool × ItemStack Item :=
  if (match s.item.stackable with | Stackable.Unique => true | _ => false)
      && s.count != 0 then
    (false, s)
  else (true, { s with count := Nat.min (s.count + count) USIZE_MAX })

/-- `ItemStack::stacks`. -/
def ItemStack.stacks (s : ItemStack Item) : Nat :=
  match s.item.stackable with
  | Stackable.Unique | Stackable.Singular => s.count
  | Stackable.Stackable size => s.count / size

/-! ## Moves (`src/moves/set.rs`; `src/moves/owned.rs` is absent) -/

/-- Modelled from the spec: the `Move` entity record (`src/moves/mod.rs` is
absent from `src/`); holds the stable id and the maximum `PP`, the only
fields the claims touch. -/
structure Move where
  id : MoveId
  pp : PP
deriving DecidableEq

/-- Modelled from the spec: `SavedMove` (`src/moves/owned.rs` is absent).
Per §6, a persisted move slot is a move id plus optional remaining uses. -/
structure SavedMove where
  id : MoveId
  pp : Option PP
deriving DecidableEq

/-- `OwnedMove` — the live move slot: the resolved move plus the remaining
uses carried over from the saved slot (modelled from the spec, §4.2:
`uninit ∘ init` changes nothing outside gender/nature/health, so the
remaining-uses field passes through resolution unchanged). -/
structure OwnedMove where
  m : Move
  pp : Option PP
deriving DecidableEq

/-- `OwnedMove::from(m)` — the slot created when a move is added fresh. -/
def ofMove (m : Move) : OwnedMove := { m := m, pp := some m.pp }

/-- Modelled from the spec: `SavedMove::init` (§4.2, §7 — a secondary
reference that fails resolution is dropped, i.e. resolves to `none`). -/
def SavedMove.init (movedex : List (MoveId × Move)) (s : SavedMove) : Option OwnedMove :=
  (dexTryGet movedex s.id).map (fun m => { m := m, pp := s.pp })

/-- `OwnedMove`'s `Uninitializable::uninit`: extract the id, keep the uses. -/
def OwnedMove.uninit (o : OwnedMove) : SavedMove := { id := o.m.id, pp := o.pp }

/-- `MOVE_SET_SIZE` (`src/moves/set.rs` line 11). -/
def MOVE_SET_SIZE : Nat := 4

/-- `SavedMoveSet = ArrayVec<[SavedMove; 4]>`, modelled as a list whose
length is at most 4. -/
abbrev SavedMoveSet := List SavedMove

/-- `OwnedMoveSet`, modelled as a list whose length is at most 4. -/
abbrev OwnedMoveSet := List OwnedMove

/-- `OwnedMoveSet::is_full`. -/
def movesetIsFull (s : OwnedMoveSet) : Bool := s.length == MOVE_SET_SIZE

/-- `OwnedMoveSet::add` (`src/moves/set.rs` lines 35–45): push when not
full; when full, overwrite the explicitly indexed slot if the index is
valid, otherwise do nothing. -/
def movesetAdd (s : OwnedMoveSet) (index : Option Nat) (m : Move) : OwnedMoveSet :=
  let om := ofMove m
  if movesetIsFull s then
    match index with
    | some i => if i < s.length then s.set i om else s
    | none => s
  else s ++ [om]

/-- `Initializable::init` for `SavedMoveSet` (`src/moves/set.rs` lines
17–25): always succeeds; each saved move that fails to resolve is dropped
(`flat_map` over the per-move `Option`). -/
def savedMoveSetInit (movedex : List (MoveId × Move)) (s : SavedMoveSet) :
    Option OwnedMoveSet :=
  some (s.filterMap (SavedMove.init movedex))

/-- `Uninitializable::uninit` for `OwnedMoveSet` (`src/moves/set.rs` lines
48–54). -/
def movesetUninit (s : OwnedMoveSet) : SavedMoveSet := s.map OwnedMove.uninit

/-! ## Pokemon (`src/pokemon.rs`) -/

/-- `Gender` (`src/pokemon/data.rs`, absent from `src/`; the three variants
are named in `src/pokemon.rs::generate_gender`). -/
inductive Gender where
  | Male | Female | None
deriving DecidableEq

/-- `Nature`: its definition file is absent from `src/`; the claims only
move natures around, so it is modelled as an opaque numeric code. -/
abbrev Nature := Nat

/-- `LiveAilment`: its definition file is absent from `src/`; the claims
only move ailments around, so it is modelled as an opaque numeric code. -/
abbrev LiveAilment := Nat

/-- Modelled from the spec (§5): the random-number source is an external
collaborator that generates uniform values in a range; modelled as a seed
that is consumed one value at a time. -/
structure Rng where
  seed : Nat

/-- Modelled from the spec: `Rng::gen_range(lo..hi)`. -/
def Rng.genRange (r : Rng) (lo hi : Nat) : Nat × Rng :=
  (lo + r.seed % (hi - lo), { seed := r.seed + 1 })

/-- `LearnableMove(level, id)` (`src/pokemon.rs`, tuple struct). -/
abbrev LearnableMove := Level × MoveId

/-- `Training` (`src/pokemon/data.rs` is absent from `src/`): carries
`base_exp` and the growth curve.  Modelled from the spec (glossary): the
growth curve is a function mapping a level to the experience threshold
(`max_exp`) required to reach the next level. -/
structure Training where
  baseExp : Nat
  growth : Level → Experience

/-- `Breeding` (`src/pokemon/data.rs` is absent from `src/`): the optional
gender-ratio percentage used by `generate_gender`. -/
structure Breeding where
  gender : Option Nat

/-- `Pokemon` (`src/pokemon.rs`), restricted to the fields the verified
operations read (display/type fields are never consulted by the claims). -/
structure Pokemon where
  id : PokemonId
  name : String
  moves : List LearnableMove
  base : Stats
  training : Training
  breeding : Breeding

/-- `Pokemon::UNKNOWN` (`Identifiable` impl in `src/pokemon.rs`). -/
def Pokemon.UNKNOWN : PokemonId := 0

/-- `Pokemon::moves_at` (`src/pokemon.rs` lines 104–112): filter the stored
learnable-move list by a range membership test, keeping stored order. -/
def movesAt (p : Pokemon) (contains : Level → Bool) : List MoveId :=
  (p.moves.filter (fun lm => contains lm.1)).map (fun lm => lm.2)

/-- `Pokemon::generate_gender` (`src/pokemon.rs` lines 71–81); the
`Gender::RANGE` constant is absent from `src/` and modelled as `0..8`. -/
def Pokemon.generate_gender (p : Pokemon) (r : Rng) : Gender × Rng :=
  match p.breeding.gender with
  | some percentage =>
      let vr := r.genRange 0 8
      (if vr.1 > percentage then Gender.Male else Gender.Female, vr.2)
  | none => (Gender.None, r)

/-- Modelled from the spec: `Pokemon::generate_nature` (absent from
`src/`) draws a nature from the supplied randomness. -/
def Pokemon.generate_nature (r : Rng) : Nature × Rng :=
  (r.seed % 25, { seed := r.seed + 1 })

/-- `Pokemon::stat` (`src/pokemon.rs` lines 115–120): dispatch to the
health or non-health formula on the matching base/IV/EV components. -/
def Pokemon.stat (p : Pokemon) (ivs evs : Stats) (level : Level) (stat : StatType) :
    BaseStat :=
  match stat with
  | StatType.Health => base_hp p.base.hp ivs.hp evs.hp level
  | StatType.Attack => base_stat p.base.atk ivs.atk evs.atk level
  | StatType.Defense => base_stat p.base.defense ivs.defense evs.defense level
  | StatType.SpAttack => base_stat p.base.spAtk ivs.spAtk evs.spAtk level
  | StatType.SpDefense => base_stat p.base.spDef ivs.spDef evs.spDef level
  | StatType.Speed => base_stat p.base.speed ivs.speed evs.speed level

/-- Modelled from the spec: the nature-aware `Pokemon::stat` called by
`src/pokemon/owned.rs` is absent from `src/`; per the spec (§4.4) the
health formula has no nature multiplier term, and the conversion contract
only evaluates it at `StatType::Health`. -/
def Pokemon.statWithNature (p : Pokemon) (ivs evs : Stats) (level : Level)
    (_nature : Nature) (stat : StatType) : BaseStat :=
  p.stat ivs evs level stat

/-! ## Owned pokemon (`src/pokemon/owned.rs`) -/

/-- `OwnablePokemon<P, M, I, G, N, H>` (`src/pokemon/owned.rs` lines
33–73). -/
structure OwnablePokemon (P M I G N H : Type) where
  pokemon : P
  level : Level
  gender : G
  nature : N
  hp : H
  ivs : Stats
  evs : Stats
  friendship : Nat
  ailment : Option LiveAilment
  nickname : Option String
  moves : M
  item : Option I
  experience : Experience
deriving DecidableEq

/-- `SavedPokemon` — the id-only persistable instantiation. -/
abbrev SavedPokemon :=
  OwnablePokemon PokemonId SavedMoveSet ItemId (Option Gender) (Option Nature) (Option Nat)

/-- `OwnedPokemon` — the live instantiation holding resolved entities
(borrows collapse to values in the embedding). -/
abbrev OwnedPokemon :=
  OwnablePokemon Pokemon OwnedMoveSet Item Gender Nature Nat

/-- The move-regeneration block inside `SavedPokemon::init`
(`src/pokemon/owned.rs` lines 333–342): when the resolved set is empty,
add the first four learnable moves at levels `1..=level`, highest level
first, skipping ids the movedex cannot resolve. -/
def regenMoves (pokemon : Pokemon) (movedex : List (MoveId × Move)) (level : Level)
    (moves0 : OwnedMoveSet) : OwnedMoveSet :=
  (((movesAt pokemon (fun l => 1 ≤ l && l ≤ level)).reverse.take 4).foldl
    (fun s mid =>
      match dexTryGet movedex mid with
      | some m => movesetAdd s none m
      | none => s)) moves0

/-- `SavedPokemon::init` (`src/pokemon/owned.rs` lines 309–361): resolve
the species (failure aborts with `none`), fill in gender/nature/hp from
randomness or the stat formula when absent, resolve the move set
(regenerating learnable moves when it comes back empty) and the optional
item (dropping it silently on failure). -/
def SavedPokemon.init (saved : SavedPokemon) (random : Rng)
    (pokedex : List (PokemonId × Pokemon)) (movedex : List (MoveId × Move))
    (itemdex : List (ItemId × Item)) : Option OwnedPokemon :=
  (dexTryGet pokedex saved.pokemon).bind fun pokemon =>
    let gr : Gender × Rng :=
      match saved.gender with
      | some g => (g, random)
      | none => pokemon.generate_gender random
    let nr : Nature × Rng :=
      match saved.nature with
      | some n => (n, gr.2)
      | none => Pokemon.generate_nature gr.2
    let hp : Nat :=
      match saved.hp with
      | some h => h
      | none =>
          Pokemon.statWithNature pokemon saved.ivs saved.evs saved.level nr.1
            StatType.Health
    (savedMoveSetInit movedex saved.moves).bind fun moves0 =>
      let moves := if moves0.isEmpty then regenMoves pokemon movedex saved.level moves0
        else moves0
      let item := saved.item.bind fun id => dexTryGet itemdex id
      some
        { pokemon := pokemon, level := saved.level, gender := gr.1, nature := nr.1,
          hp := hp, ivs := saved.ivs, evs := saved.evs, friendship := saved.friendship,
          ailment := saved.ailment, nickname := saved.nickname, moves := moves,
          item := item, experience := saved.experience }

/-- `Uninitializable::uninit` for `OwnablePokemon` (`src/pokemon/owned.rs`
lines 364–394): extract each borrowed entity's id; the concrete
gender/nature/hp re-enter the optional saved fields via `Into`. -/
def OwnedPokemon.uninit (live : OwnedPokemon) : SavedPokemon :=
  { pokemon := live.pokemon.id, level := live.level, gender := some live.gender,
    nature := some live.nature, hp := some live.hp, ivs := live.ivs, evs := live.evs,
    friendship := live.friendship, ailment := live.ailment, nickname := live.nickname,
    moves := movesetUninit live.moves, item := live.item.map (fun i => i.id),
    experience := live.experience }

/-! ## Leveling (`src/pokemon/owned.rs` lines 168–216) -/

/-- The level-up loop of `add_exp`:
`while experience > growth.max_exp(level) { experience -= …; level += 1 }`.
`level` is a `u8`, so the increment wraps modulo 256.  The Rust loop has
no intrinsic bound (it diverges when every threshold is zero), so the
model carries explicit fuel; `add_exp` supplies more fuel than any
terminating run of the source consumes. -/
def maxExpLoop (growth : Level → Experience) :
    Nat → Experience → Level → Experience × Level
  | 0, exp, level => (exp, level)
  | fuel + 1, exp, level =>
      if growth level < exp then
        maxExpLoop growth fuel (exp - growth level) ((level + 1) % 256)
      else (exp, level)

/-- The move-offering loop of `on_level_up`
(`src/pokemon/owned.rs` lines 204–213): while the set is not full, pull
the next learnable id; add it if the movedex resolves it (silently
dropping unresolvable ids); return the unconsumed remainder. -/
def offerMoves (movedex : List (MoveId × Move)) :
    OwnedMoveSet → List MoveId → OwnedMoveSet × List MoveId
  | s, [] => (s, [])
  | s, id :: rest =>
      if movesetIsFull s then (s, id :: rest)
      else
        match dexTryGet movedex id with
        | some m => offerMoves movedex (movesetAdd s none m) rest
        | none => offerMoves movedex s rest

/-- `OwnablePokemon::on_level_up` (`src/pokemon/owned.rs` lines 192–216):
offer the moves learnable at levels `previous..level` (stored order) to
the move set; the skipped remainder is returned. -/
def on_level_up (movedex : List (MoveId × Move)) (s : OwnedPokemon)
    (previous : Level) : OwnedPokemon × List MoveId :=
  let ids := movesAt s.pokemon (fun l => previous ≤ l && l < s.level)
  let r := offerMoves movedex s.moves ids
  ({ s with moves := r.1 }, r.2)

/-- `OwnablePokemon::add_exp` (`src/pokemon/owned.rs` lines 168–190):
`self.experience += experience * 5` in `u32` (wrapping, modelled with
explicit `% U32`), then the level-up loop, then `on_level_up`. -/
def add_exp (movedex : List (MoveId × Move)) (s : OwnedPokemon)
    (experience : Experience) : OwnedPokemon × List MoveId :=
  let exp0 := (s.experience + (experience * 5) % U32) % U32
  let previous := s.level
  let el := maxExpLoop s.pokemon.training.growth (exp0 + 256) exp0 s.level
  on_level_up movedex { s with experience := el.1, level := el.2 } previous

/-! ## Spec-side reference definitions

Definitions that follow the claims' words where they diverge from the
source, for refutation by comparison. -/

/-- Insertion step for sorting learnable moves by descending level. -/
def insertDesc (x : LearnableMove) : List LearnableMove → List LearnableMove
  | [] => [x]
  | y :: tl => if y.1 ≤ x.1 then x :: y :: tl else y :: insertDesc x tl

/-- Sort learnable moves by descending level (insertion sort). -/
def sortDesc : List LearnableMove → List LearnableMove
  | [] => []
  | x :: tl => insertDesc x (sortDesc tl)

/-- The claim's reading of `add_exp`: identical experience/level
arithmetic, but the moves learnable between the previous and the new
level are offered in descending level order (moves learned at higher
levels tried first). -/
def add_exp_descending (movedex : List (MoveId × Move)) (s : OwnedPokemon)
    (experience : Experience) : OwnedPokemon × List MoveId :=
  let exp0 := (s.experience + (experience * 5) % U32) % U32
  let previous := s.level
  let el := maxExpLoop s.pokemon.training.growth (exp0 + 256) exp0 s.level
  let s1 : OwnedPokemon := { s with experience := el.1, level := el.2 }
  let ids :=
    (sortDesc (s1.pokemon.moves.filter (fun lm => previous ≤ lm.1 && lm.1 < s1.level))).map
      (fun lm => lm.2)
  let r := offerMoves movedex s1.moves ids
  ({ s1 with moves := r.1 }, r.2)

/-! ## Concrete fixtures used by witnesses and counterexamples -/

/-- A concrete move. -/
def mvA : Move := { id := "a", pp := 10 }

/-- A concrete move. -/
def mvB : Move := { id := "b", pp := 20 }

/-- A concrete move. -/
def mvT : Move := { id := "tackle", pp := 35 }

/-- A concrete move. -/
def mvX : Move := { id := "x", pp := 5 }

/-- A concrete move. -/
def mvY : Move := { id := "y", pp := 5 }

/-- A concrete move. -/
def mvZ : Move := { id := "z", pp := 5 }

/-- A concrete ordinary stackable, consumable item. -/
def potion : Item := { id := "potion", stackable := Stackable.Stackable 10, consume := true }

/-- A concrete non-consumable item. -/
def oldRod : Item := { id := "old-rod", stackable := Stackable.Singular, consume := false }

/-- A concrete uniquely-stackable item. -/
def bike : Item := { id := "bike", stackable := Stackable.Unique, consume := false }

/-- A concrete consumable item. -/
def berry : Item := { id := "berry", stackable := Stackable.Stackable 5, consume := true }

/-- Growth curve fixture: thresholds 10 at levels 2 and 3, 100 above. -/
def growthC4 : Level → Experience := fun l => if l == 2 then 10 else if l == 3 then 10 else 100

/-- Species fixture learning move "a" at level 2 and "b" at level 3. -/
def pokeC4 : Pokemon :=
  { id := 1, name := "Testmon", moves := [(2, "a"), (3, "b")],
    base := ⟨60, 60, 60, 60, 60, 60⟩, training := { baseExp := 200, growth := growthC4 },
    breeding := { gender := none } }

/-- Movedex fixture resolving "a", "b", "x", "y", "z". -/
def movedexC4 : List (MoveId × Move) :=
  [("a", mvA), ("b", mvB), ("x", mvX), ("y", mvY), ("z", mvZ)]

/-- Live pokemon fixture at level 2 with three of four move slots filled. -/
def liveC4 : OwnedPokemon :=
  { pokemon := pokeC4, level := 2, gender := Gender.None, nature := 0,
    hp := 10, ivs := ⟨0, 0, 0, 0, 0, 0⟩, evs := ⟨0, 0, 0, 0, 0, 0⟩, friendship := 70,
    ailment := none, nickname := none, moves := [ofMove mvX, ofMove mvY, ofMove mvZ],
    item := none, experience := 0 }

/-- Species fixture learning "tackle" at level 1, huge growth thresholds. -/
def pokeT : Pokemon :=
  { id := 1, name := "Testmon", moves := [(1, "tackle")],
    base := ⟨60, 60, 60, 60, 60, 60⟩,
    training := { baseExp := 200, growth := fun _ => 100 },
    breeding := { gender := none } }

/-- Pokedex fixture containing `pokeT` under its own id. -/
def pokedexT : List (PokemonId × Pokemon) := [(1, pokeT)]

/-- Movedex fixture resolving only "tackle". -/
def movedexT : List (MoveId × Move) := [("tackle", mvT)]

/-- Itemdex fixture resolving only "berry". -/
def itemdexB : List (ItemId × Item) := [("berry", berry)]

/-- A deterministic rng seed. -/
def rng0 : Rng := { seed := 0 }

/-- Saved pokemon fixture with an empty saved move set. -/
def savedEmptyMoves : SavedPokemon :=
  { pokemon := 1, level := 5, gender := some Gender.Male, nature := some 0,
    hp := some 10, ivs := ⟨0, 0, 0, 0, 0, 0⟩, evs := ⟨0, 0, 0, 0, 0, 0⟩,
    friendship := 70, ailment := none, nickname := none, moves := [], item := none,
    experience := 0 }

/-- Saved pokemon fixture whose only saved move id resolves to nothing. -/
def savedBadMove : SavedPokemon :=
  { savedEmptyMoves with moves := [{ id := "bad", pp := none }] }

/-- Saved pokemon fixture with a resolvable move and item. -/
def savedGood : SavedPokemon :=
  { savedEmptyMoves with
    moves := [SavedMove.mk "tackle" (some 7)], item := some "berry",
    gender := none, nature := none, hp := none,
    nickname := some "Nick", ailment := some 3, experience := 42 }

/-- Saved pokemon fixture with one resolvable and one corrupt move id
plus an unresolvable item id. -/
def savedMixed : SavedPokemon :=
  { savedEmptyMoves with
    moves := [SavedMove.mk "tackle" (some 7), SavedMove.mk "bad" none],
    item := some "nope" }

/-- Species fixture with no learnable moves and untriggerable growth. -/
def pokeInert : Pokemon :=
  { id := 2, name := "Inert", moves := [],
    base := ⟨60, 60, 60, 60, 60, 60⟩,
    training := { baseExp := 200, growth := fun _ => U32 },
    breeding := { gender := none } }

/-- Live pokemon fixture on `pokeInert` with zero experience. -/
def liveInert : OwnedPokemon :=
  { liveC4 with pokemon := pokeInert, moves := [], level := 1 }

/-! ## C3 — Dex lookup totality with fallback -/

/-- C3: for a Dex containing an entry keyed by the kind's UNKNOWN id,
`get(id)` returns the entity keyed by `id` when present and otherwise the
unknown entry, never failing through its return value; for a Dex lacking
the unknown entry, `get` on an absent id and `unknown()` abort fatally
(panic) rather than returning or swallowing the error. -/
theorem dex_get_total {ι α : Type} [DecidableEq ι] (entries : List (ι × α)) (unknownId : ι) :
    ((dexTryGet entries unknownId).isSome = true →
      ∀ id : ι,
        (∀ e, dexTryGet entries id = some e → dexGet entries unknownId id = PanicOr.ok e) ∧
        (∀ u, dexTryGet entries id = none → dexTryGet entries unknownId = some u →
          dexGet entries unknownId id = PanicOr.ok u) ∧
        dexGet entries unknownId id ≠ PanicOr.fatal) ∧
    (dexTryGet entries unknownId = none →
      dexUnknown entries unknownId = PanicOr.fatal ∧
      ∀ id : ι, dexTryGet entries id = none →
        dexGet entries unknownId id = PanicOr.fatal) := by
  constructor
  · intro hu id
    refine ⟨?_, ?_, ?_⟩
    · intro e he
      simp [dexGet, he]
    · intro u hid hu'
      simp [dexGet, dexUnknown, hid, hu']
    · cases hid : dexTryGet entries id with
      | some e => simp [dexGet, hid]
      | none =>
        cases hu' : dexTryGet entries unknownId with
        | some u => simp [dexGet, dexUnknown, hid, hu']
        | none => rw [hu'] at hu; simp at hu
  · intro hu
    refine ⟨by simp [dexUnknown, hu], ?_⟩
    intro id hid
    simp [dexGet, dexUnknown, hid, hu]

/-- Witness for C3 at concrete dexes over `Nat` keys and `String`
entities: with the unknown entry present, `get` hits and falls back;
without it, `get` on a miss and `unknown` are fatal. -/
theorem dex_get_total_witness :
    dexGet [((0 : Nat), "u"), (1, "a")] 0 1 = PanicOr.ok "a" ∧
    dexGet [((0 : Nat), "u"), (1, "a")] 0 7 = PanicOr.ok "u" ∧
    dexUnknown [((1 : Nat), "a")] 0 = PanicOr.fatal ∧
    dexGet [((1 : Nat), "a")] 0 7 = PanicOr.fatal := by
  refine ⟨?_, ?_, ?_, ?_⟩
  · exact ((dex_get_total [((0 : Nat), "u"), (1, "a")] 0).1 (by decide) 1).1 "a" (by decide)
  · exact
      ((dex_get_total [((0 : Nat), "u"), (1, "a")] 0).1 (by decide) 7).2.1 "u" (by decide)
        (by decide)
  · exact ((dex_get_total [((1 : Nat), "a")] 0).2 (by decide)).1
  · exact ((dex_get_total [((1 : Nat), "a")] 0).2 (by decide)).2 7 (by decide)

/-! ## C7 — Item stack take operations -/

/-- C7: `try_take(n)` fails leaving the stack unchanged when `n > count`,
otherwise returns a stack of exactly `n` and decrements the source to
`count - n`; `take(n)` never fails: when `n > count` it returns a stack of
`count` and zeroes the source, otherwise it behaves like the successful
`try_take`. -/
theorem stack_take_ops {I : Type} (s : ItemStack I) (n : Nat) :
    (n > s.count →
      ItemStack.try_take s n = (none, s) ∧
      ItemStack.take s n = ({ item := s.item, count := s.count }, { s with count := 0 })) ∧
    (n ≤ s.count →
      ItemStack.try_take s n =
        (some { item := s.item, count := n }, { s with count := s.count - n }) ∧
      ItemStack.take s n = ({ item := s.item, count := n }, { s with count := s.count - n })) := by
  constructor
  · intro h
    simp [ItemStack.try_take, ItemStack.take, h]
  · intro h
    have h' : ¬n > s.count := Nat.not_lt.mpr h
    simp [ItemStack.try_take, ItemStack.take, ItemStack.take_gt, h']

/-- Witness for C7: `take(10)` on a count-6 stack yields 6 and zeroes the
source; `try_take(10)` fails leaving 6; `try_take(4)` succeeds. -/
theorem stack_take_ops_witness :
    ItemStack.try_take { item := potion, count := 6 } 10 =
      (none, { item := potion, count := 6 }) ∧
    ItemStack.take { item := potion, count := 6 } 10 =
      ({ item := potion, count := 6 }, { item := potion, count := 0 }) ∧
    ItemStack.try_take { item := potion, count := 6 } 4 =
      (some { item := potion, count := 4 }, { item := potion, count := 2 }) := by
  refine ⟨?_, ?_, ?_⟩
  · exact ((stack_take_ops { item := potion, count := 6 } 10).1 (by decide)).1
  · exact ((stack_take_ops { item := potion, count := 6 } 10).1 (by decide)).2
  · exact ((stack_take_ops { item := potion, count := 6 } 4).2 (by decide)).1

/-! ## C8 — try_use -/

/-- C8 counterexample: on a non-consumable item's stack with count 0,
`try_use` reports failure (`false`), while the claim says a non-consumable
stack always reports success without decrementing. -/
theorem try_use_zero_nonconsumable :
    ItemStack.try_use { item := oldRod, count := 0 } =
      (false, { item := oldRod, count := 0 }) ∧
    oldRod.should_consume = false ∧ (false : Bool) ≠ true := by decide

/-- C8 (amended): `try_use` reports success exactly when count was
positive; a consumable item is then decremented by one, a non-consumable
item is left unchanged; a zero stack reports failure for both. -/
theorem try_use_spec (s : ItemStack Item) :
    (s.count = 0 → ItemStack.try_use s = (false, s)) ∧
    (0 < s.count → s.item.should_consume = true →
      ItemStack.try_use s = (true, { s with count := s.count - 1 })) ∧
    (0 < s.count → s.item.should_consume = false →
      ItemStack.try_use s = (true, s)) := by
  refine ⟨?_, ?_, ?_⟩
  · intro h
    simp [ItemStack.try_use, h]
  · intro h hc
    simp [ItemStack.try_use, h, hc]
  · intro h hc
    simp [ItemStack.try_use, h, hc]

/-- Witness for C8's amended theorem at concrete stacks. -/
theorem try_use_spec_witness :
    ItemStack.try_use { item := berry, count := 0 } = (false, { item := berry, count := 0 }) ∧
    ItemStack.try_use { item := berry, count := 3 } = (true, { item := berry, count := 2 }) ∧
    ItemStack.try_use { item := oldRod, count := 3 } = (true, { item := oldRod, count := 3 }) := by
  refine ⟨?_, ?_, ?_⟩
  · exact (try_use_spec { item := berry, count := 0 }).1 rfl
  · exact (try_use_spec { item := berry, count := 3 }).2.1 (by decide) (by decide)
  · exact (try_use_spec { item := oldRod, count := 3 }).2.2 (by decide) (by decide)

/-! ## C10 — add on a unique item from count 0 -/

/-- C10: `add(n)` on a uniquely-stackable item's stack with count 0
returns `true` and sets the count to `n` for every representable `n`; the
unique-item refusal applies only once the count is already non-zero. -/
theorem unique_add_from_zero (s : ItemStack Item) (n : Nat)
    (hu : s.item.stackable = Stackable.Unique) :
    (s.count = 0 → n ≤ USIZE_MAX → ItemStack.add s n = (true, { s with count := n })) ∧
    (s.count ≠ 0 → ItemStack.add s n = (false, s)) := by
  constructor
  · intro h0 hn
    simp [ItemStack.add, hu, h0, Nat.min_eq_left hn]
  · intro h0
    simp [ItemStack.add, hu, h0]

/-- Witness for C10: adding 5 to a zero-count unique stack sets count to
5; a second add is refused. -/
theorem unique_add_from_zero_witness :
    ItemStack.add { item := bike, count := 0 } 5 = (true, { item := bike, count := 5 }) ∧
    ItemStack.add { item := bike, count := 5 } 1 = (false, { item := bike, count := 5 }) := by
  constructor
  · exact (unique_add_from_zero { item := bike, count := 0 } 5 rfl).1 rfl (by decide)
  · exact (unique_add_from_zero { item := bike, count := 5 } 1 rfl).2 (by decide)

/-! ## C9 — Move-slot set add -/

/-- C9: with capacity 4, `add(index, move)` appends when the set is not
full; when full and given an in-range index, it overwrites exactly that
slot leaving the others unchanged; when full with no valid index it is a
no-op; the length never exceeds 4. -/
theorem moveset_add_spec (s : OwnedMoveSet) (index : Option Nat) (m : Move)
    (hlen : s.length ≤ 4) :
    (s.length < 4 → movesetAdd s index m = s ++ [ofMove m]) ∧
    (s.length = 4 → ∀ i, index = some i → i < 4 →
      movesetAdd s index m = s.set i (ofMove m) ∧
      (movesetAdd s index m)[i]? = some (ofMove m) ∧
      ∀ j, j ≠ i → (movesetAdd s index m)[j]? = s[j]?) ∧
    (s.length = 4 → index = none → movesetAdd s index m = s) ∧
    (s.length = 4 → ∀ i, index = some i → 4 ≤ i → movesetAdd s index m = s) ∧
    (movesetAdd s index m).length ≤ 4 := by
  refine ⟨?_, ?_, ?_, ?_, ?_⟩
  · intro h
    have hne : s.length ≠ 4 := Nat.ne_of_lt h
    simp [movesetAdd, movesetIsFull, MOVE_SET_SIZE, hne]
  · intro h4 i hi hlt
    subst hi
    have heq : movesetAdd s (some i) m = s.set i (ofMove m) := by
      simp [movesetAdd, movesetIsFull, MOVE_SET_SIZE, h4, hlt]
    refine ⟨heq, ?_, ?_⟩
    · rw [heq]
      exact List.getElem?_set_self (by rw [h4]; exact hlt)
    · intro j hj
      rw [heq]
      exact List.getElem?_set_ne (fun hij => hj hij.symm)
  · intro h4 hi
    subst hi
    simp [movesetAdd, movesetIsFull, MOVE_SET_SIZE, h4]
  · intro h4 i hi hge
    subst hi
    have hnlt : ¬i < 4 := Nat.not_lt.mpr hge
    simp [movesetAdd, movesetIsFull, MOVE_SET_SIZE, h4, hnlt]
  · rcases Nat.lt_or_ge s.length 4 with h | h
    · have hne : s.length ≠ 4 := Nat.ne_of_lt h
      simp [movesetAdd, movesetIsFull, MOVE_SET_SIZE, hne]
      omega
    · have h4 : s.length = 4 := Nat.le_antisymm hlen h
      cases index with
      | none => simp [movesetAdd, movesetIsFull, MOVE_SET_SIZE, h4]
      | some i =>
        by_cases hil : i < 4
        · have heq : movesetAdd s (some i) m = s.set i (ofMove m) := by
            simp [movesetAdd, movesetIsFull, MOVE_SET_SIZE, h4, hil]
          rw [heq, List.length_set]
          exact hlen
        · have heq : movesetAdd s (some i) m = s := by
            simp [movesetAdd, movesetIsFull, MOVE_SET_SIZE, h4, hil]
          rw [heq]
          exact hlen

/-- Witness for C9: a full 4-slot set drops an unindexed 5th move,
overwrites exactly slot 2 under an explicit index, and a 3-slot set
appends. -/
theorem moveset_add_spec_witness :
    movesetAdd [ofMove mvX, ofMove mvY, ofMove mvZ, ofMove mvT] none mvA =
      [ofMove mvX, ofMove mvY, ofMove mvZ, ofMove mvT] ∧
    movesetAdd [ofMove mvX, ofMove mvY, ofMove mvZ, ofMove mvT] (some 2) mvA =
      [ofMove mvX, ofMove mvY, ofMove mvA, ofMove mvT] ∧
    movesetAdd [ofMove mvX, ofMove mvY, ofMove mvZ] none mvA =
      [ofMove mvX, ofMove mvY, ofMove mvZ, ofMove mvA] := by
  refine ⟨?_, ?_, ?_⟩
  · exact
      (moveset_add_spec [ofMove mvX, ofMove mvY, ofMove mvZ, ofMove mvT] none mvA
        (by decide)).2.2.1 rfl rfl
  · exact
      ((moveset_add_spec [ofMove mvX, ofMove mvY, ofMove mvZ, ofMove mvT] (some 2) mvA
        (by decide)).2.1 rfl 2 rfl (by decide)).1
  · exact
      (moveset_add_spec [ofMove mvX, ofMove mvY, ofMove mvZ] none mvA (by decide)).1
        (by decide)

/-! ## C5 — numeric operation safety -/

/-- The level-up loop keeps experience inside `u32` range and the level
inside `u8` range. -/
theorem maxExpLoop_bounds (g : Level → Experience) (fuel exp : Nat) (level : Level)
    (he : exp < U32) (hl : level < 256) :
    (maxExpLoop g fuel exp level).1 < U32 ∧ (maxExpLoop g fuel exp level).2 < 256 := by
  induction fuel generalizing exp level with
  | zero => exact ⟨he, hl⟩
  | succ fuel ih =>
    simp only [maxExpLoop]
    split
    · exact ih _ _ (Nat.lt_of_le_of_lt (Nat.sub_le _ _) he) (Nat.mod_lt _ (by norm_num))
    · exact ⟨he, hl⟩

/-- C5 counterexample: `add_exp` does not saturate.  Feeding experience
`2^31` to a zero-experience pokemon stores the `u32`-wrapped value
`2^31` (`(2^31 · 5) mod 2^32`), while saturating arithmetic would have
produced `u32::MAX = 2^32 - 1`. -/
theorem add_exp_not_saturating :
    (add_exp [] liveInert 2147483648).1.experience = 2147483648 ∧
    Nat.min (0 + 2147483648 * 5) (U32 - 1) = U32 - 1 ∧
    (2147483648 : Nat) ≠ U32 - 1 := by decide

/-- C5 (amended): item-stack arithmetic is overflow/underflow safe —
`add` either refuses (count unchanged) or saturating-adds up to
`usize::MAX`; `take` takes exactly `min n count` and conserves the total;
`try_take` never increases the source; `try_use` removes at most one —
while `add_exp` keeps experience and level in machine range by *wrapping*
(mod `2^32` / mod `2^8`) rather than by saturating arithmetic. -/
theorem numeric_safety :
    (∀ (s : ItemStack Item) (n : Nat),
      ((ItemStack.add s n).1 = false → (ItemStack.add s n).2 = s) ∧
      ((ItemStack.add s n).1 = true →
        (ItemStack.add s n).2.count = Nat.min (s.count + n) USIZE_MAX)) ∧
    (∀ (I : Type) (s : ItemStack I) (n : Nat),
      (ItemStack.take s n).1.count = Nat.min n s.count ∧
      (ItemStack.take s n).1.count + (ItemStack.take s n).2.count = s.count) ∧
    (∀ (I : Type) (s : ItemStack I) (n : Nat),
      (ItemStack.try_take s n).2.count ≤ s.count) ∧
    (∀ s : ItemStack Item,
      (ItemStack.try_use s).2.count ≤ s.count ∧
      s.count - (ItemStack.try_use s).2.count ≤ 1) ∧
    (∀ (movedex : List (MoveId × Move)) (s : OwnedPokemon) (e : Experience),
      s.experience < U32 → s.level < 256 →
      (add_exp movedex s e).1.experience < U32 ∧ (add_exp movedex s e).1.level < 256) := by
  refine ⟨?_, ?_, ?_, ?_, ?_⟩
  · intro s n
    constructor
    · intro h
      by_cases hb :
          ((match s.item.stackable with | Stackable.Unique => true | _ => false)
            && s.count != 0) = true
      · simp [ItemStack.add, hb]
      · simp [ItemStack.add, hb] at h
    · intro h
      by_cases hb :
          ((match s.item.stackable with | Stackable.Unique => true | _ => false)
            && s.count != 0) = true
      · simp [ItemStack.add, hb] at h
      · simp [ItemStack.add, hb]
  · intro I s n
    by_cases h : n > s.count
    · have hmin : Nat.min n s.count = s.count := Nat.min_eq_right (Nat.le_of_lt h)
      simp [ItemStack.take, h, hmin]
    · have hle : n ≤ s.count := Nat.not_lt.mp h
      have hmin : Nat.min n s.count = n := Nat.min_eq_left hle
      simp [ItemStack.take, ItemStack.take_gt, h, hmin, Nat.add_sub_cancel' hle]
  · intro I s n
    by_cases h : n > s.count
    · simp [ItemStack.try_take, h]
    · simp [ItemStack.try_take, ItemStack.take_gt, h]
  · intro s
    by_cases h : s.count > 0
    · by_cases hc : s.item.should_consume = true
      · simp [ItemStack.try_use, h, hc]
        omega
      · simp [ItemStack.try_use, h, hc]
    · simp [ItemStack.try_use, h]
  · intro movedex s e he hl
    have h0 : (s.experience + e * 5 % U32) % U32 < U32 :=
      Nat.mod_lt _ (by norm_num [U32])
    have hb := maxExpLoop_bounds s.pokemon.training.growth
      ((s.experience + e * 5 % U32) % U32 + 256) ((s.experience + e * 5 % U32) % U32)
      s.level h0 hl
    simpa [add_exp, on_level_up] using hb

/-- Witness for C5's amended theorem at concrete inputs. -/
theorem numeric_safety_witness :
    (ItemStack.add { item := potion, count := 7 } 3).2.count =
      Nat.min (7 + 3) USIZE_MAX ∧
    (ItemStack.take { item := potion, count := 6 } 10).1.count = Nat.min 10 6 ∧
    (ItemStack.try_take { item := potion, count := 6 } 10).2.count ≤ 6 ∧
    (ItemStack.try_use { item := berry, count := 3 }).2.count ≤ 3 ∧
    (add_exp movedexC4 liveC4 5).1.experience < U32 ∧
    (add_exp movedexC4 liveC4 5).1.level < 256 := by
  refine ⟨?_, ?_, ?_, ?_, ?_, ?_⟩
  · exact (numeric_safety.1 { item := potion, count := 7 } 3).2 (by decide)
  · exact (numeric_safety.2.1 Item { item := potion, count := 6 } 10).1
  · exact numeric_safety.2.2.1 Item { item := potion, count := 6 } 10
  · exact (numeric_safety.2.2.2.1 { item := berry, count := 3 }).1
  · exact (numeric_safety.2.2.2.2 movedexC4 liveC4 5 (by decide) (by decide)).1
  · exact (numeric_safety.2.2.2.2 movedexC4 liveC4 5 (by decide) (by decide)).2

/-! ## C6 — stat formulas -/

/-- The non-health stat formula evaluates to the exact integer closed
form `(2·base + iv + ev)·level / 100 + 5` (natural division). -/
theorem base_stat_closed (b i e l : Nat) :
    base_stat b i e l = (2 * b + i + e) * l / 100 + 5 := by
  unfold base_stat
  have h1 : (2 * (b : ℚ) + i + e) * l / 100 + 5 =
      (((2 * b + i + e) * l : ℕ) : ℚ) / ((100 : ℕ) : ℚ) + ((5 : ℕ) : ℚ) := by
    push_cast
    ring
  rw [h1, Int.floor_add_nat, Rat.floor_natCast_div_natCast, natureMultiplier, mul_one,
    Int.floor_intCast, ← Int.natCast_div, ← Nat.cast_add, Int.toNat_ofNat]

/-- The health formula evaluates to the exact integer closed form
`(2·base + iv + ev)·level / 100 + level + 10` (natural division). -/
theorem base_hp_closed (b i e l : Nat) :
    base_hp b i e l = (2 * b + i + e) * l / 100 + l + 10 := by
  unfold base_hp
  have h1 : (2 * (b : ℚ) + i + e) * l / 100 + l + 10 =
      (((2 * b + i + e) * l : ℕ) : ℚ) / ((100 : ℕ) : ℚ) + ((l + 10 : ℕ) : ℚ) := by
    push_cast
    ring
  rw [h1, Int.floor_add_nat, Rat.floor_natCast_div_natCast, ← Int.natCast_div, ← Nat.cast_add,
    Int.toNat_ofNat]
  exact (Nat.add_assoc _ _ _).symm

/-- C6: the non-health stat is
`floor(floor((2·base + iv + ev)·level/100 + 5) · nature_multiplier)` and
the health stat is `floor((2·base + iv + ev)·level/100 + level + 10)`
with no nature multiplier term, the inner floor taken before the
multiplier; and `stat(60, 31, 0, 50) = 80`, `hp(60, 31, 0, 50) = 135`. -/
theorem stat_formulas :
    (∀ b i e l : Nat, (base_stat b i e l : ℤ) =
      ⌊(⌊(2 * (b : ℚ) + i + e) * l / 100 + 5⌋ : ℚ) * natureMultiplier⌋) ∧
    (∀ b i e l : Nat, (base_hp b i e l : ℤ) =
      ⌊(2 * (b : ℚ) + i + e) * l / 100 + l + 10⌋) ∧
    base_stat 60 31 0 50 = 80 ∧ base_hp 60 31 0 50 = 135 := by
  have hstat : ∀ b i e l : Nat,
      ⌊(⌊(2 * (b : ℚ) + i + e) * l / 100 + 5⌋ : ℚ) * natureMultiplier⌋ =
        (((2 * b + i + e) * l / 100 + 5 : ℕ) : ℤ) := by
    intro b i e l
    have h1 : (2 * (b : ℚ) + i + e) * l / 100 + 5 =
        (((2 * b + i + e) * l : ℕ) : ℚ) / ((100 : ℕ) : ℚ) + ((5 : ℕ) : ℚ) := by
      push_cast
      ring
    rw [h1, Int.floor_add_nat, Rat.floor_natCast_div_natCast, natureMultiplier, mul_one,
      Int.floor_intCast, ← Int.natCast_div, ← Nat.cast_add]
  have hhp : ∀ b i e l : Nat,
      ⌊(2 * (b : ℚ) + i + e) * l / 100 + l + 10⌋ =
        (((2 * b + i + e) * l / 100 + l + 10 : ℕ) : ℤ) := by
    intro b i e l
    have h1 : (2 * (b : ℚ) + i + e) * l / 100 + l + 10 =
        (((2 * b + i + e) * l : ℕ) : ℚ) / ((100 : ℕ) : ℚ) + ((l + 10 : ℕ) : ℚ) := by
      push_cast
      ring
    rw [h1, Int.floor_add_nat, Rat.floor_natCast_div_natCast, ← Int.natCast_div, ← Nat.cast_add]
    push_cast
    ring
  refine ⟨?_, ?_, ?_, ?_⟩
  · intro b i e l
    rw [base_stat_closed, hstat]
  · intro b i e l
    rw [base_hp_closed, hhp]
  · rw [base_stat_closed]
  · rw [base_hp_closed]

/-! ## Helper lemmas for the conversion contract -/

/-- In a well-formed dex, a hit returns an entity whose id is the key. -/
theorem dexTryGet_wf {ι α : Type} [DecidableEq ι] (getId : α → ι) :
    ∀ entries : List (ι × α), dexWF getId entries = true →
      ∀ {i : ι} {v : α}, dexTryGet entries i = some v → getId v = i := by
  intro entries
  induction entries with
  | nil =>
    intro _ i v h
    simp [dexTryGet] at h
  | cons kv rest ih =>
    intro hwf i v h
    obtain ⟨k, w⟩ := kv
    rw [dexWF, List.all_cons, Bool.and_eq_true] at hwf
    obtain ⟨hw, hrest⟩ := hwf
    by_cases hk : k = i
    · subst hk
      rw [dexTryGet, if_pos rfl] at h
      cases h
      exact of_decide_eq_true hw
    · rw [dexTryGet, if_neg hk] at h
      exact ih hrest h

/-- Resolving then un-resolving a saved move list whose ids all resolve in
a well-formed movedex reproduces the list. -/
theorem movesRoundtrip (movedex : List (MoveId × Move)) (hwf : dexWF Move.id movedex = true) :
    ∀ l : List SavedMove,
      l.all (fun sm => (dexTryGet movedex sm.id).isSome) = true →
      (l.filterMap (SavedMove.init movedex)).map OwnedMove.uninit = l := by
  intro l
  induction l with
  | nil =>
    intro _
    rfl
  | cons sm tl ih =>
    intro hall
    rw [List.all_cons, Bool.and_eq_true] at hall
    obtain ⟨hsm, htl⟩ := hall
    cases hg : dexTryGet movedex sm.id with
    | none =>
      rw [hg] at hsm
      simp at hsm
    | some m =>
      have hid : m.id = sm.id := dexTryGet_wf Move.id movedex hwf hg
      simp only [List.filterMap_cons, SavedMove.init, hg, Option.map_some', List.map_cons]
      rw [ih htl]
      simp [OwnedMove.uninit, hid]

/-- A non-empty saved move list that fully resolves produces a non-empty
live list. -/
theorem filterMap_init_ne_nil (movedex : List (MoveId × Move)) (l : List SavedMove)
    (hne : l ≠ []) (hall : l.all (fun sm => (dexTryGet movedex sm.id).isSome) = true) :
    (l.filterMap (SavedMove.init movedex)).isEmpty = false := by
  cases l with
  | nil => exact absurd rfl hne
  | cons sm tl =>
    rw [List.all_cons, Bool.and_eq_true] at hall
    cases hg : dexTryGet movedex sm.id with
    | none =>
      rw [hg] at hall
      simp at hall
    | some m => simp [List.filterMap_cons, SavedMove.init, hg]

/-- A saved move list with at least one resolvable id produces a
non-empty live list. -/
theorem filterMap_init_ne_nil_of_any (movedex : List (MoveId × Move)) :
    ∀ l : List SavedMove,
      l.any (fun sm => (dexTryGet movedex sm.id).isSome) = true →
      (l.filterMap (SavedMove.init movedex)).isEmpty = false := by
  intro l
  induction l with
  | nil =>
    intro h
    simp at h
  | cons sm tl ih =>
    intro h
    cases hg : dexTryGet movedex sm.id with
    | some m => simp [List.filterMap_cons, SavedMove.init, hg]
    | none =>
      rw [List.any_cons, Bool.or_eq_true] at h
      rcases h with h | h
      · rw [hg] at h
        simp at h
      · simp only [List.filterMap_cons, SavedMove.init, hg, Option.map_none']
        exact ih h

/-- The ids of the resolved live move list are exactly the resolvable
saved ids, in order. -/
theorem filterMap_init_ids (movedex : List (MoveId × Move))
    (hwf : dexWF Move.id movedex = true) :
    ∀ l : List SavedMove,
      (l.filterMap (SavedMove.init movedex)).map (fun o => o.m.id) =
        (l.filter (fun sm => (dexTryGet movedex sm.id).isSome)).map (fun sm => sm.id) := by
  intro l
  induction l with
  | nil => rfl
  | cons sm tl ih =>
    cases hg : dexTryGet movedex sm.id with
    | none => simp [List.filterMap_cons, List.filter_cons, SavedMove.init, hg, ih]
    | some m =>
      have hid : m.id = sm.id := dexTryGet_wf Move.id movedex hwf hg
      simp [List.filterMap_cons, List.filter_cons, SavedMove.init, hg, ih, hid]

/-- Unfolding `SavedPokemon::init` on a species hit: every live field in
terms of the saved value. -/
theorem init_proj (saved : SavedPokemon) (random : Rng)
    (pokedex : List (PokemonId × Pokemon)) (movedex : List (MoveId × Move))
    (itemdex : List (ItemId × Item)) (p : Pokemon)
    (hpg : dexTryGet pokedex saved.pokemon = some p) :
    ∃ live, saved.init random pokedex movedex itemdex = some live ∧
      live.pokemon = p ∧ live.level = saved.level ∧ live.ivs = saved.ivs ∧
      live.evs = saved.evs ∧ live.friendship = saved.friendship ∧
      live.ailment = saved.ailment ∧ live.nickname = saved.nickname ∧
      live.experience = saved.experience ∧
      live.item = saved.item.bind (fun iid => dexTryGet itemdex iid) ∧
      live.moves =
        (if (saved.moves.filterMap (SavedMove.init movedex)).isEmpty then
          regenMoves p movedex saved.level (saved.moves.filterMap (SavedMove.init movedex))
        else saved.moves.filterMap (SavedMove.init movedex)) := by
  unfold SavedPokemon.init
  rw [hpg]
  simp only [Option.some_bind, savedMoveSetInit]
  exact ⟨_, rfl, rfl, rfl, rfl, rfl, rfl, rfl, rfl, rfl, rfl, rfl⟩

/-- `init` fails exactly on a species miss. -/
theorem init_none_iff (saved : SavedPokemon) (random : Rng)
    (pokedex : List (PokemonId × Pokemon)) (movedex : List (MoveId × Move))
    (itemdex : List (ItemId × Item)) :
    saved.init random pokedex movedex itemdex = none ↔
      dexTryGet pokedex saved.pokemon = none := by
  cases hpg : dexTryGet pokedex saved.pokemon with
  | none =>
    unfold SavedPokemon.init
    rw [hpg]
    simp
  | some p =>
    obtain ⟨live, hl, -⟩ := init_proj saved random pokedex movedex itemdex p hpg
    rw [hl]
    simp

/-! ## C1 — round-trip of the conversion contract -/

/-- C1 counterexample: a saved pokemon with an *empty* saved move set
resolves successfully, but `init` regenerates learnable moves, so
`uninit(init(saved))` differs from `saved` in the `moves` field as well —
not only in gender, nature and hp. -/
theorem roundtrip_counterexample :
    (SavedPokemon.init savedEmptyMoves rng0 pokedexT movedexT []).map
        (fun live => (OwnedPokemon.uninit live).moves) =
      some [SavedMove.mk "tackle" (some 35)] ∧
    savedEmptyMoves.moves = [] ∧
    ([SavedMove.mk "tackle" (some 35)] : List SavedMove) ≠ [] := by decide

/-- C1 (amended): for a saved pokemon that resolves successfully against
well-formed dexes **and whose saved move set is non-empty** (an empty set
is refilled with learnable moves by `init`), `uninit(init(saved))` equals
`saved` on the pokemon id, level, nickname, ivs, evs, friendship,
ailment, moves, item and experience fields, while gender, nature and hp
come back as concrete (`some`) values. -/
theorem init_uninit_roundtrip (saved : SavedPokemon) (random : Rng)
    (pokedex : List (PokemonId × Pokemon)) (movedex : List (MoveId × Move))
    (itemdex : List (ItemId × Item))
    (hwp : dexWF Pokemon.id pokedex = true)
    (hwm : dexWF Move.id movedex = true)
    (hwi : dexWF Item.id itemdex = true)
    (hpk : (dexTryGet pokedex saved.pokemon).isSome = true)
    (hm : saved.moves.all (fun sm => (dexTryGet movedex sm.id).isSome) = true)
    (hne : saved.moves ≠ [])
    (hit : saved.item.all (fun iid => (dexTryGet itemdex iid).isSome) = true) :
    ∃ live, saved.init random pokedex movedex itemdex = some live ∧
      (OwnedPokemon.uninit live).pokemon = saved.pokemon ∧
      (OwnedPokemon.uninit live).level = saved.level ∧
      (OwnedPokemon.uninit live).nickname = saved.nickname ∧
      (OwnedPokemon.uninit live).ivs = saved.ivs ∧
      (OwnedPokemon.uninit live).evs = saved.evs ∧
      (OwnedPokemon.uninit live).friendship = saved.friendship ∧
      (OwnedPokemon.uninit live).ailment = saved.ailment ∧
      (OwnedPokemon.uninit live).moves = saved.moves ∧
      (OwnedPokemon.uninit live).item = saved.item ∧
      (OwnedPokemon.uninit live).experience = saved.experience ∧
      (OwnedPokemon.uninit live).gender.isSome = true ∧
      (OwnedPokemon.uninit live).nature.isSome = true ∧
      (OwnedPokemon.uninit live).hp.isSome = true := by
  cases hpg : dexTryGet pokedex saved.pokemon with
  | none =>
    rw [hpg] at hpk
    simp at hpk
  | some p =>
    obtain ⟨live, hinit, hpok, hlev, hivs, hevs, hfr, hail, hnick, hexp, hitm, hmvs⟩ :=
      init_proj saved random pokedex movedex itemdex p hpg
    refine ⟨live, hinit, ?_, ?_, ?_, ?_, ?_, ?_, ?_, ?_, ?_, ?_, rfl, rfl, rfl⟩
    · show live.pokemon.id = saved.pokemon
      rw [hpok]
      exact dexTryGet_wf Pokemon.id pokedex hwp hpg
    · exact hlev
    · exact hnick
    · exact hivs
    · exact hevs
    · exact hfr
    · exact hail
    · show movesetUninit live.moves = saved.moves
      rw [hmvs, filterMap_init_ne_nil movedex saved.moves hne hm]
      simp only [Bool.false_eq_true, if_false]
      exact movesRoundtrip movedex hwm saved.moves hm
    · show live.item.map (fun i => i.id) = saved.item
      rw [hitm]
      cases hsi : saved.item with
      | none => rfl
      | some iid =>
        rw [hsi] at hit
        rw [Option.all_some] at hit
        cases hg2 : dexTryGet itemdex iid with
        | none =>
          rw [hg2] at hit
          simp at hit
        | some it =>
          have : it.id = iid := dexTryGet_wf Item.id itemdex hwi hg2
          simp [hg2, this]
    · exact hexp

/-- Witness for C1's amended theorem at a concrete saved pokemon whose
move and item ids resolve. -/
theorem init_uninit_roundtrip_witness :
    ∃ live, savedGood.init rng0 pokedexT movedexT itemdexB = some live ∧
      (OwnedPokemon.uninit live).pokemon = savedGood.pokemon ∧
      (OwnedPokemon.uninit live).level = savedGood.level ∧
      (OwnedPokemon.uninit live).nickname = savedGood.nickname ∧
      (OwnedPokemon.uninit live).ivs = savedGood.ivs ∧
      (OwnedPokemon.uninit live).evs = savedGood.evs ∧
      (OwnedPokemon.uninit live).friendship = savedGood.friendship ∧
      (OwnedPokemon.uninit live).ailment = savedGood.ailment ∧
      (OwnedPokemon.uninit live).moves = savedGood.moves ∧
      (OwnedPokemon.uninit live).item = savedGood.item ∧
      (OwnedPokemon.uninit live).experience = savedGood.experience ∧
      (OwnedPokemon.uninit live).gender.isSome = true ∧
      (OwnedPokemon.uninit live).nature.isSome = true ∧
      (OwnedPokemon.uninit live).hp.isSome = true :=
  init_uninit_roundtrip savedGood rng0 pokedexT movedexT itemdexB (by decide) (by decide)
    (by decide) (by decide) (by decide) (by decide) (by decide)

/-! ## C2 — partial-failure asymmetry of init -/

/-- C2 counterexample: when *every* saved move id fails to resolve, the
live move set is not "exactly the moves whose ids resolved" (that set is
empty) — `init` refills it with learnable moves instead, here "tackle". -/
theorem init_drop_counterexample :
    (SavedPokemon.init savedBadMove rng0 pokedexT movedexT []).map
        (fun live => live.moves.map (fun o => o.m.id)) = some ["tackle"] ∧
    (savedBadMove.moves.filter (fun sm => (dexTryGet movedexT sm.id).isSome)).map
        (fun sm => sm.id) = ([] : List MoveId) ∧
    (["tackle"] : List MoveId) ≠ ([] : List MoveId) := by decide

/-- C2 (amended): `init` returns no live value exactly when the species
id misses the pokedex; a failing move id is silently dropped and, *as
long as at least one saved move id resolves*, the live move set holds
exactly the resolvable saved moves in order (when none resolves the set
is refilled with learnable moves); a failing item id is silently dropped
(`Option.filter` of the resolvability test). -/
theorem init_failure_asymmetry (saved : SavedPokemon) (random : Rng)
    (pokedex : List (PokemonId × Pokemon)) (movedex : List (MoveId × Move))
    (itemdex : List (ItemId × Item))
    (hwm : dexWF Move.id movedex = true)
    (hwi : dexWF Item.id itemdex = true) :
    (saved.init random pokedex movedex itemdex = none ↔
      dexTryGet pokedex saved.pokemon = none) ∧
    (saved.moves.any (fun sm => (dexTryGet movedex sm.id).isSome) = true →
      ∀ live, saved.init random pokedex movedex itemdex = some live →
        live.moves.map (fun o => o.m.id) =
          (saved.moves.filter (fun sm => (dexTryGet movedex sm.id).isSome)).map
            (fun sm => sm.id) ∧
        live.item.map (fun i => i.id) =
          Option.filter (fun iid => (dexTryGet itemdex iid).isSome) saved.item) := by
  refine ⟨init_none_iff saved random pokedex movedex itemdex, ?_⟩
  intro hany live hl
  cases hpg : dexTryGet pokedex saved.pokemon with
  | none =>
    rw [(init_none_iff saved random pokedex movedex itemdex).mpr hpg] at hl
    cases hl
  | some p =>
    obtain ⟨live', hinit, hpok, hlev, hivs, hevs, hfr, hail, hnick, hexp, hitm, hmvs⟩ :=
      init_proj saved random pokedex movedex itemdex p hpg
    rw [hinit] at hl
    cases hl
    constructor
    · rw [hmvs, filterMap_init_ne_nil_of_any movedex saved.moves hany]
      simp only [Bool.false_eq_true, if_false]
      exact filterMap_init_ids movedex hwm saved.moves
    · rw [hitm]
      cases hsi : saved.item with
      | none => rfl
      | some iid =>
        cases hg2 : dexTryGet itemdex iid with
        | none => simp [Option.filter, hg2]
        | some it =>
          have : it.id = iid := dexTryGet_wf Item.id itemdex hwi hg2
          simp [Option.filter, hg2, this]

/-- Witness for C2's amended theorem: a saved pokemon with one good and
one corrupt move id and a non-resolvable item id loads with exactly the
good move and no item. -/
theorem init_failure_asymmetry_witness :
    (savedMixed.init rng0 pokedexT movedexT itemdexB = none ↔
      dexTryGet pokedexT savedMixed.pokemon = none) ∧
    (savedMixed.moves.any (fun sm => (dexTryGet movedexT sm.id).isSome) = true →
      ∀ live, savedMixed.init rng0 pokedexT movedexT itemdexB = some live →
        live.moves.map (fun o => o.m.id) =
          (savedMixed.moves.filter (fun sm => (dexTryGet movedexT sm.id).isSome)).map
            (fun sm => sm.id) ∧
        live.item.map (fun i => i.id) =
          Option.filter (fun iid => (dexTryGet itemdexB iid).isSome) savedMixed.item) :=
  init_failure_asymmetry savedMixed rng0 pokedexT movedexT itemdexB (by decide) (by decide)

/-! ## C4 — add_exp -/

/-- On a non-full set, `add` with no index appends. -/
theorem movesetAdd_not_full (s : OwnedMoveSet) (m : Move) (h : s.length ≠ 4) :
    movesetAdd s none m = s ++ [ofMove m] := by
  simp [movesetAdd, movesetIsFull, MOVE_SET_SIZE, h]

/-- Characterization of the move-offering loop of `on_level_up`: a prefix
of the offered ids is consumed, its resolvable ids are appended in order
(never touching the existing slots), the unconsumed remainder is
returned, the set stays within capacity, and the loop stops only at
exhaustion or a full set. -/
theorem offerMoves_spec (movedex : List (MoveId × Move)) :
    ∀ (ids : List MoveId) (s : OwnedMoveSet), s.length ≤ 4 →
      ∃ k, k ≤ ids.length ∧
        offerMoves movedex s ids =
          (s ++ (ids.take k).filterMap (fun i => (dexTryGet movedex i).map ofMove),
            ids.drop k) ∧
        (offerMoves movedex s ids).1.length ≤ 4 ∧
        (ids.drop k = [] ∨ (offerMoves movedex s ids).1.length = 4) := by
  intro ids
  induction ids with
  | nil =>
    intro s hs
    refine ⟨0, Nat.le_refl 0, by simp [offerMoves], ?_, Or.inl rfl⟩
    simpa [offerMoves] using hs
  | cons id rest ih =>
    intro s hs
    by_cases hfull : movesetIsFull s = true
    · have h4 : s.length = 4 := by simpa [movesetIsFull, MOVE_SET_SIZE] using hfull
      refine ⟨0, Nat.zero_le _, ?_, ?_, Or.inr ?_⟩
      · simp [offerMoves, hfull]
      · simp [offerMoves, hfull, h4]
      · simp [offerMoves, hfull, h4]
    · have hfull' : movesetIsFull s = false := Bool.eq_false_iff.mpr hfull
      have hne : s.length ≠ 4 := by
        intro h
        rw [movesetIsFull, MOVE_SET_SIZE, h] at hfull'
        simp at hfull'
      cases hg : dexTryGet movedex id with
      | some m =>
        have hlen : (s ++ [ofMove m]).length ≤ 4 := by
          rw [List.length_append, List.length_singleton]
          omega
        obtain ⟨k, hk, heq, hb, hor⟩ := ih (s ++ [ofMove m]) hlen
        have hoffer : offerMoves movedex s (id :: rest) =
            offerMoves movedex (s ++ [ofMove m]) rest := by
          rw [offerMoves, hfull']
          simp only [Bool.false_eq_true, if_false, hg, movesetAdd_not_full s m hne]
        refine ⟨k + 1, Nat.succ_le_succ hk, ?_, ?_, ?_⟩
        · rw [hoffer, heq, List.take_succ_cons, List.drop_succ_cons, List.filterMap_cons, hg,
            Option.map_some', List.append_assoc, List.singleton_append]
        · rw [hoffer]
          exact hb
        · rw [hoffer, List.drop_succ_cons]
          exact hor
      | none =>
        obtain ⟨k, hk, heq, hb, hor⟩ := ih s hs
        have hoffer : offerMoves movedex s (id :: rest) = offerMoves movedex s rest := by
          rw [offerMoves, hfull']
          simp only [Bool.false_eq_true, if_false, hg]
        refine ⟨k + 1, Nat.succ_le_succ hk, ?_, ?_, ?_⟩
        · rw [hoffer, heq, List.take_succ_cons, List.drop_succ_cons, List.filterMap_cons, hg,
            Option.map_none']
        · rw [hoffer]
          exact hb
        · rw [hoffer, List.drop_succ_cons]
          exact hor

/-- C4 (amended): `add_exp` scales the input by 5 and accumulates it;
while the accumulated experience exceeds the growth threshold of the
current level it subtracts that threshold and increments the level — an
input exceeding exactly two thresholds raises the level by two and leaves
the scaled remainder; afterwards the moves learnable between the previous
and new level are offered **in the order they appear in the species'
stored learnable-move list** (not re-sorted into descending level order),
each added only while the set has free capacity, never evicting occupied
slots, and the remainder skipped because the set was full is returned. -/
theorem add_exp_two_levels (movedex : List (MoveId × Move)) (s : OwnedPokemon)
    (e : Experience)
    (hmoves : s.moves.length ≤ 4)
    (hlvl : s.level + 2 < 256)
    (hov : s.experience + e * 5 < U32)
    (ht1 : s.pokemon.training.growth s.level < s.experience + e * 5)
    (ht2 : s.pokemon.training.growth (s.level + 1) <
      s.experience + e * 5 - s.pokemon.training.growth s.level)
    (ht3 : s.experience + e * 5 - s.pokemon.training.growth s.level -
        s.pokemon.training.growth (s.level + 1) ≤
      s.pokemon.training.growth (s.level + 2)) :
    (add_exp movedex s e).1.level = s.level + 2 ∧
    (add_exp movedex s e).1.experience =
      s.experience + e * 5 - s.pokemon.training.growth s.level -
        s.pokemon.training.growth (s.level + 1) ∧
    ∃ k, k ≤ (movesAt s.pokemon (fun l => s.level ≤ l && l < s.level + 2)).length ∧
      (add_exp movedex s e).1.moves =
        s.moves ++
          ((movesAt s.pokemon (fun l => s.level ≤ l && l < s.level + 2)).take k).filterMap
            (fun i => (dexTryGet movedex i).map ofMove) ∧
      (add_exp movedex s e).2 =
        (movesAt s.pokemon (fun l => s.level ≤ l && l < s.level + 2)).drop k ∧
      (add_exp movedex s e).1.moves.length ≤ 4 ∧
      ((add_exp movedex s e).2 = [] ∨ (add_exp movedex s e).1.moves.length = 4) := by
  have hexp5 : e * 5 % U32 = e * 5 :=
    Nat.mod_eq_of_lt (Nat.lt_of_le_of_lt (Nat.le_add_left _ _) hov)
  have hexp0 : (s.experience + e * 5 % U32) % U32 = s.experience + e * 5 := by
    rw [hexp5]
    exact Nat.mod_eq_of_lt hov
  have hm1 : (s.level + 1) % 256 = s.level + 1 :=
    Nat.mod_eq_of_lt (Nat.lt_of_le_of_lt (Nat.le_succ _) hlvl)
  have hm2 : (s.level + 1 + 1) % 256 = s.level + 2 := Nat.mod_eq_of_lt hlvl
  have hloop : maxExpLoop s.pokemon.training.growth (s.experience + e * 5 + 256)
      (s.experience + e * 5) s.level =
      (s.experience + e * 5 - s.pokemon.training.growth s.level -
        s.pokemon.training.growth (s.level + 1), s.level + 2) := by
    have h1 : s.experience + e * 5 + 256 = (s.experience + e * 5 + 255) + 1 := rfl
    have h2 : s.experience + e * 5 + 255 = (s.experience + e * 5 + 254) + 1 := rfl
    have h3 : s.experience + e * 5 + 254 = (s.experience + e * 5 + 253) + 1 := rfl
    rw [h1, maxExpLoop, if_pos ht1, hm1, h2, maxExpLoop, if_pos ht2, hm2, h3, maxExpLoop,
      if_neg (Nat.not_lt.mpr ht3)]
  have hae : add_exp movedex s e =
      ({ s with
          experience := s.experience + e * 5 - s.pokemon.training.growth s.level -
            s.pokemon.training.growth (s.level + 1),
          level := s.level + 2,
          moves := (offerMoves movedex s.moves
            (movesAt s.pokemon (fun l => s.level ≤ l && l < s.level + 2))).1 },
        (offerMoves movedex s.moves
          (movesAt s.pokemon (fun l => s.level ≤ l && l < s.level + 2))).2) := by
    simp only [add_exp, hexp0, hloop, on_level_up]
  rw [hae]
  obtain ⟨k, hk, heq, hb, hor⟩ :=
    offerMoves_spec movedex (movesAt s.pokemon (fun l => s.level ≤ l && l < s.level + 2))
      s.moves hmoves
  refine ⟨rfl, rfl, k, hk, ?_, ?_, ?_, ?_⟩
  · simp [heq]
  · simp [heq]
  · simpa using hb
  · simpa [heq] using hor

/-- Witness for C4's amended theorem: 25 scaled experience crosses the
level-2 and level-3 thresholds (10 each), landing at level 4 with
remainder 5; the one free slot takes the level-2 move "a" and the
level-3 move "b" is returned as skipped. -/
theorem add_exp_two_levels_witness :
    (add_exp movedexC4 liveC4 5).1.level = liveC4.level + 2 ∧
    (add_exp movedexC4 liveC4 5).1.experience =
      liveC4.experience + 5 * 5 - liveC4.pokemon.training.growth liveC4.level -
        liveC4.pokemon.training.growth (liveC4.level + 1) ∧
    ∃ k, k ≤ (movesAt liveC4.pokemon
        (fun l => liveC4.level ≤ l && l < liveC4.level + 2)).length ∧
      (add_exp movedexC4 liveC4 5).1.moves =
        liveC4.moves ++
          ((movesAt liveC4.pokemon
              (fun l => liveC4.level ≤ l && l < liveC4.level + 2)).take k).filterMap
            (fun i => (dexTryGet movedexC4 i).map ofMove) ∧
      (add_exp movedexC4 liveC4 5).2 =
        (movesAt liveC4.pokemon (fun l => liveC4.level ≤ l && l < liveC4.level + 2)).drop k ∧
      (add_exp movedexC4 liveC4 5).1.moves.length ≤ 4 ∧
      ((add_exp movedexC4 liveC4 5).2 = [] ∨
        (add_exp movedexC4 liveC4 5).1.moves.length = 4) :=
  add_exp_two_levels movedexC4 liveC4 5 (by decide) (by decide) (by decide) (by decide)
    (by decide) (by decide)

/-- C4 counterexample: the source offers learnable moves in stored list
order, not in descending level order.  Between levels 2 and 4, "a"
(learned at 2) and "b" (learned at 3) are offered to one free slot: the
code adds "a" and returns "b" as skipped, while the claim's
descending-order offering would add "b" and return "a". -/
theorem add_exp_order_counterexample :
    ((add_exp movedexC4 liveC4 5).1.moves.map (fun o => o.m.id),
      (add_exp movedexC4 liveC4 5).2) = (["x", "y", "z", "a"], ["b"]) ∧
    ((add_exp_descending movedexC4 liveC4 5).1.moves.map (fun o => o.m.id),
      (add_exp_descending movedexC4 liveC4 5).2) = (["x", "y", "z", "b"], ["a"]) ∧
    (["x", "y", "z", "a"] : List MoveId) ≠ ["x", "y", "z", "b"] := by decide

end Firecore
